import Mathlib

/-!
Shallow embedding of the Scrapper reconciliation pipeline
(src/traitement_principal.py and src/scraper_utils.py).

Conventions of the embedding:
* Python floats are modelled by exact rationals; `round(x, 2)` is modelled by
  `round2` (round half up at two decimals; no claim depends on tie behaviour).
* Pandas DataFrames are modelled by lists of typed rows.  The three required
  columns of each sheet are fields of the row type, so the defensive
  "column present" checks of the source are identities except where a claim
  needs a malformed frame, in which case the frame structure carries explicit
  column-presence flags.
* A Python function that can raise is modelled with `Except Unit`; a caught
  exception corresponds to the `Except.error` branch.
* Crucially, `save_or_update_url`, `add_to_manual_verification` and
  `remove_from_manual_verification` (traitement_principal.py lines 218-296)
  REBIND their local dataframe parameter on the append / filter paths
  (`df = pd.concat(...)`, `df = df[~mask]...`), so those frames are invisible
  to the caller.  Each of the three operations therefore gets two embeddings:
  a `_local` version (the function's own dataframe at return, i.e. the
  documented intent "Ces fonctions modifient les DFs passés en argument") and
  an `_effect` version (the dataframe the caller actually observes afterwards,
  where only genuinely in-place pandas mutations such as `.loc[...] = ...`
  survive).
-/

namespace Scrapper

/-- Leading and trailing whitespace removal on a character list (the effect
of Python `s.strip()` for ASCII text). -/
def trimChars (cs : List Char) : List Char :=
  ((cs.dropWhile Char.isWhitespace).reverse.dropWhile Char.isWhitespace).reverse

/-- Python `s.strip()`. -/
def pyStrip (s : String) : String := String.mk (trimChars s.data)

/-- Python `s.strip().lower()`, the normalisation used to build the
composite cache key (traitement_principal.py lines 562-563 and 699-701). -/
def pyNorm (s : String) : String := String.mk ((trimChars s.data).map Char.toLower)

/-- The normalised composite index `norm(name) + "__" + norm(domain)`
(traitement_principal.py line 564). -/
def indexKey (name dom : String) : String := pyNorm name ++ "__" ++ pyNorm dom

/-- Python truthiness-after-strip test `u and isinstance(u, str) and u.strip()`
used to accept a URL (traitement_principal.py lines 582, 599, 619, 631). -/
def validUrl : Option String → Bool
  | none => false
  | some s => !(pyStrip s == "")

/-- Bare Python truthiness of an optional string (`if not competitor_url`,
traitement_principal.py line 613): `None` and the empty string are falsy. -/
def pyTruthy : Option String → Bool
  | none => false
  | some s => !(s == "")

/-- Python `str(url or '')` (traitement_principal.py lines 238 and 276):
`None` becomes the empty string. -/
def pyUrlStr : Option String → String
  | none => ""
  | some s => s

/-- Model of Python `round(q, 2)`: round to two decimals (half up; the only
difference with Python's banker rounding is on exact ties, which no claim
exercises). -/
def round2 (q : ℚ) : ℚ := ((⌊q * 100 + 1 / 2⌋ : ℤ) : ℚ) / 100

/-- A Python value fed to `float(...)`: either an actual number, or a value
(such as a non-numeric string) on which `float` raises `ValueError`or
`TypeError`. -/
inductive PVal
  | num (q : ℚ)
  | nonNumeric
deriving DecidableEq, Repr

/-- Possible return values of `calculate_price_difference`
(traitement_principal.py lines 299-312): a number, `float('inf')`,
the string `"N/A"`, or the string `"Erreur Type"`. -/
inductive PriceOut
  | val (q : ℚ)
  | inf
  | na
  | typeErr
deriving DecidableEq, Repr

/-- Embedding of `calculate_price_difference(my_price, competitor_price)`
(traitement_principal.py lines 299-312).  `none` models Python `None`;
`PVal.nonNumeric` models a present value on which `float()` raises, which the
source catches and turns into the string `"Erreur Type"`. -/
def calculate_price_difference : Option PVal → Option PVal → PriceOut
  | some my, some comp =>
    match my, comp with
    | PVal.num my_p, PVal.num comp_p =>
      if 0 < comp_p then PriceOut.val (round2 ((my_p - comp_p) / comp_p * 100))
      else if comp_p = 0 ∧ 0 < my_p then PriceOut.inf
      else if comp_p = 0 ∧ my_p = 0 then PriceOut.val 0
      else PriceOut.na
    | _, _ => PriceOut.typeErr
  | _, _ => PriceOut.na

/-- Characters kept by `re.sub(r'[^\d,\.]', '', price_text)`
(scraper_utils.py line 20). -/
def keepChar (c : Char) : Bool := c.isDigit || c == ',' || c == '.'

/-- The cleaning pass of `clean_price`: drop every character that is not a
digit, a comma or a dot, then turn commas into dots (scraper_utils.py
line 20). -/
def cleanChars (s : String) : List Char :=
  (s.data.filter keepChar).map (fun c => if c == ',' then '.' else c)

/-- Longest run of leading digits, together with the remaining characters. -/
def takeDigits : List Char → List Char × List Char
  | [] => ([], [])
  | c :: cs =>
    if c.isDigit then
      let p := takeDigits cs
      (c :: p.1, p.2)
    else ([], c :: cs)

/-- The match of the regex `(\d+(\.\d+)?)` anchored at a position that starts
with a digit: greedy digits, then optionally a dot followed by at least one
digit (scraper_utils.py line 21). -/
def matchNumAt (cs : List Char) : List Char :=
  let p := takeDigits cs
  match p.2 with
  | '.' :: r2 =>
    let q := takeDigits r2
    if q.1 = [] then p.1 else p.1 ++ '.' :: q.1
  | _ => p.1

/-- Leftmost match of `re.search(r'(\d+(\.\d+)?)', ...)`
(scraper_utils.py line 21): scan to the first digit and match there. -/
def findNum : List Char → Option (List Char)
  | [] => none
  | c :: cs => if c.isDigit then some (matchNumAt (c :: cs)) else findNum cs

/-- Numeric value of a digit string. -/
def digitsToNat (ds : List Char) : Nat :=
  ds.foldl (fun acc c => acc * 10 + (c.toNat - '0'.toNat)) 0

/-- Value of a matched number `digits ('.' digits)?` as a rational
(Python `float(match.group(1))`, exact since the matched text is finite
decimal). -/
def parseNum (m : List Char) : ℚ :=
  let p := takeDigits m
  match p.2 with
  | '.' :: fr =>
    let q := takeDigits fr
    (digitsToNat p.1 : ℚ) + (digitsToNat q.1 : ℚ) / ((10 : ℚ) ^ q.1.length)
  | _ => (digitsToNat p.1 : ℚ)

/-- Embedding of `clean_price(price_text)` (scraper_utils.py lines 18-22):
returns the parsed price, or `none` when the cleaned text contains no number
match. -/
def clean_price (s : String) : Option ℚ := (findNum (cleanChars s)).map parseNum

/-- Status values flowing through the pipeline, covering the integer HTTP
codes and every sentinel string that the source can place in a result's
`status` field. -/
inductive St
  | stInit
  | urlFromVerification
  | verificationNoURL
  | urlFromCache
  | urlFromSerper
  | serperNotFound
  | serperApiError
  | localLookupError
  | requiresLPV
  | noUrlToScrape
  | scrapingException
  | httpCode (n : Nat)
  | requestError
  | unknownError
  | invalidTaskData
  | workerLoopError
deriving DecidableEq, Repr

/-- Outcome of the `try` body of `extract_product_info` (scraper_utils.py
lines 25-77) up to line 72: either the fetch and per-domain soup traversal
completed, delivering the extracted `name`, the raw `price_text` and the
captured HTTP status, or one of the three exception classes of lines 79-87
was raised (an HTTP error with its numeric response code, a transport
error, or any other exception). -/
inductive FetchOutcome
  | ok (name : Option String) (priceText : Option String) (httpStatus : Nat)
  | httpError (code : Nat)
  | requestExc
  | otherExc
deriving DecidableEq, Repr

/-- Embedding of `extract_product_info(url, domain)` (scraper_utils.py
lines 24-87), abstracting the network fetch and HTML traversal into a
`FetchOutcome`.  The success path applies `clean_price` to a truthy
`price_text` (line 74) and returns the captured HTTP status; each `except`
clause returns its distinguished status.  The function is total: every
outcome yields a `(name, price, status)` triple. -/
def extract_product_info : FetchOutcome → Option String × Option ℚ × St
  | FetchOutcome.ok n pt s =>
    let price : Option ℚ :=
      match pt with
      | some t => if t == "" then none else clean_price t
      | none => none
    (n, price, St.httpCode s)
  | FetchOutcome.httpError c => (none, none, St.httpCode c)
  | FetchOutcome.requestExc => (none, none, St.requestError)
  | FetchOutcome.otherExc => (none, none, St.unknownError)

/-- A row of the `verification_manuelle` sheet with its three required
columns `MonNomProduit`, `Concurrent`, `URLConcurrent`
(traitement_principal.py line 63). -/
structure VerifRow where
  monNomProduit : String
  concurrent : String
  urlConcurrent : String
deriving DecidableEq, Repr

/-- A row of the `products_url` sheet with its three required columns
`NomProduit`, `CompetitorDomain`, `URLConcurrent`
(traitement_principal.py line 64). -/
structure UrlRow where
  nomProduit : String
  competitorDomain : String
  urlConcurrent : String
deriving DecidableEq, Repr

/-- The raw-equality mask of `save_or_update_url`
(traitement_principal.py lines 277-278): un-normalised string equality on
`NomProduit` and `CompetitorDomain`. -/
def urlRowMatches (p d : String) (r : UrlRow) : Bool :=
  r.nomProduit == p && r.competitorDomain == d

/-- The raw-equality mask of `add_to_manual_verification` and
`remove_from_manual_verification` (traitement_principal.py lines 232-233 and
254-255). -/
def verifRowMatches (p d : String) (r : VerifRow) : Bool :=
  r.monNomProduit == p && r.concurrent == d

/-- The body of `save_or_update_url(product_name, domain, url, products_url_df)`
(traitement_principal.py lines 265-296), read as a state transformer on the
function's OWN dataframe: the returned frame is the value of the local
variable `products_url_df` at return, which on the append path is the
`pd.concat` result of line 294.  Update path: all rows matching the raw mask
get the new URL when the first matching row's URL differs. -/
def save_or_update_url_local (p d : String) (url : Option String)
    (df : List UrlRow) : List UrlRow × Bool :=
  let urlStr := pyUrlStr url
  match df.find? (urlRowMatches p d) with
  | some r0 =>
    if r0.urlConcurrent ≠ urlStr then
      (df.map (fun r => if urlRowMatches p d r then
          { r with urlConcurrent := urlStr } else r), true)
    else (df, false)
  | none => (df ++ [⟨p, d, urlStr⟩], true)

/-- Caller-visible behaviour of `save_or_update_url`
(traitement_principal.py lines 265-296).  The update path mutates in place
via `.loc[mask, "URLConcurrent"] = url_str` (line 284) and is visible to the
caller; the append path rebinds the local name to the `pd.concat` result
(line 294), so the caller's frame is unchanged even though the function
returns `True`. -/
def save_or_update_url_effect (p d : String) (url : Option String)
    (df : List UrlRow) : List UrlRow × Bool :=
  let urlStr := pyUrlStr url
  match df.find? (urlRowMatches p d) with
  | some r0 =>
    if r0.urlConcurrent ≠ urlStr then
      (df.map (fun r => if urlRowMatches p d r then
          { r with urlConcurrent := urlStr } else r), true)
    else (df, false)
  | none => (df, true)

/-- The body of `add_to_manual_verification(product_name, domain,
verification_df, url)` (traitement_principal.py lines 218-244) as a state
transformer on the function's own dataframe: when the pair is absent, the
new row (with `str(url or '')`) is concatenated (line 241). -/
def add_to_manual_verification_local (p d : String) (url : Option String)
    (df : List VerifRow) : List VerifRow × Bool :=
  if df.any (verifRowMatches p d) then (df, false)
  else (df ++ [⟨p, d, pyUrlStr url⟩], true)

/-- Caller-visible behaviour of `add_to_manual_verification`
(traitement_principal.py lines 218-244): the `pd.concat` of line 241 rebinds
the local name, so the appended row never reaches the caller's frame; the
function still returns `True`. -/
def add_to_manual_verification_effect (p d : String) (url : Option String)
    (df : List VerifRow) : List VerifRow × Bool :=
  if df.any (verifRowMatches p d) then (df, false) else (df, true)

/-- The body of `remove_from_manual_verification(product_name, domain,
verification_df)` (traitement_principal.py lines 246-263) as a state
transformer on the function's own dataframe: all rows matching the raw mask
are filtered out (line 259). -/
def remove_from_manual_verification_local (p d : String)
    (df : List VerifRow) : List VerifRow × Bool :=
  if df.any (verifRowMatches p d) then
    (df.filter (fun r => !(verifRowMatches p d r)), true)
  else (df, false)

/-- Caller-visible behaviour of `remove_from_manual_verification`
(traitement_principal.py lines 246-263): line 259 rebinds the local name to
the filtered copy, so the caller's frame keeps every row; the function still
returns `True` whenever a match exists. -/
def remove_from_manual_verification_effect (p d : String)
    (df : List VerifRow) : List VerifRow × Bool :=
  if df.any (verifRowMatches p d) then (df, true) else (df, false)

/-- Python truthiness of an optional competitor name
(`competitor_name and ...`, traitement_principal.py line 960). -/
def truthyName : Option String → Bool
  | none => false
  | some s => !(s == "")

/-- A report row as appended by `process_single_result`
(traitement_principal.py lines 979-985). -/
structure ReportRow where
  monNomProduit : String
  concurrent : String
  nomProduitConcurrent : String
  similariteNom : ℚ
  monPrix : ℚ
  prixConcurrent : ℚ
  estMoinsCher : Bool
  differencePrix : PriceOut
  urlConcurrent : Option String
deriving DecidableEq, Repr

/-- Output of `process_single_result`: the report row appended to
`results_list` (if any), the caller-visible verification and products-url
frames afterwards, and the two returned change flags. -/
structure PSROut where
  row : Option ReportRow
  vdf : List VerifRow
  pdf : List UrlRow
  verifChanged : Bool
  productsChanged : Bool
deriving DecidableEq, Repr

/-- Embedding of `process_single_result(results_list, my_product_name,
my_price, domain, competitor_url, http_status, competitor_name,
competitor_price, verification_df, products_url_df)`
(traitement_principal.py lines 946-1012), with the caller-visible (`_effect`)
semantics of the three cache operations.  `sim` abstracts the external
Levenshtein similarity collaborator.  Success requires
`str(http_status) == '200'`, a truthy competitor name and a non-`None`
competitor price (line 960); on success it appends the report row and calls
the upsert then the verification removal (lines 990-993); otherwise, unless
the status is `'Verification No URL'`, it calls the verification insertion
(lines 1001-1010).  The `except` path of lines 995-998 is unreachable in the
embedding because every operation of the success block is total here. -/
def process_single_result (sim : String → String → ℚ)
    (myName : String) (myPrice : ℚ) (dom : String) (url : Option String)
    (st : St) (compName : Option String) (compPrice : Option ℚ)
    (vdf : List VerifRow) (pdf : List UrlRow) : PSROut :=
  if st = St.httpCode 200 ∧ truthyName compName ∧ compPrice.isSome then
    let cp := compPrice.getD 0
    let cn := compName.getD ""
    let row : ReportRow :=
      { monNomProduit := myName
        concurrent := dom
        nomProduitConcurrent := cn
        similariteNom := round2 (sim myName.toLower cn.toLower)
        monPrix := myPrice
        prixConcurrent := cp
        estMoinsCher := decide (cp < myPrice)
        differencePrix :=
          calculate_price_difference (some (PVal.num myPrice))
            (some (PVal.num cp))
        urlConcurrent := url }
    let pRes := save_or_update_url_effect myName dom url pdf
    let vRes := remove_from_manual_verification_effect myName dom vdf
    { row := some row, vdf := vRes.1, pdf := pRes.1
      verifChanged := vRes.2, productsChanged := pRes.2 }
  else
    if st ≠ St.verificationNoURL then
      let vRes := add_to_manual_verification_effect myName dom url vdf
      { row := none, vdf := vRes.1, pdf := pdf
        verifChanged := vRes.2, productsChanged := false }
    else
      { row := none, vdf := vdf, pdf := pdf
        verifChanged := false, productsChanged := false }

/-- The `verification_manuelle` frame as seen by `_worker_task`: its rows,
plus explicit presence flags for the `IndexUnique` column (added by the
orchestrator, traitement_principal.py lines 696-707) and the
`URLConcurrent` column.  When `hasURL` is false the `urlConcurrent` field of
the rows is a meaningless placeholder (the column does not exist and reading
it raises `KeyError`). -/
structure VerifDF where
  hasIndexUnique : Bool
  hasURL : Bool
  rows : List VerifRow
deriving DecidableEq, Repr

/-- The `products_url` frame as seen by `_worker_task`, with the same
column-presence flags as `VerifDF`. -/
structure UrlDF where
  hasIndexUnique : Bool
  hasURL : Bool
  rows : List UrlRow
deriving DecidableEq, Repr

/-- The `IndexUnique` value of a verification row
(traitement_principal.py lines 699-701). -/
def verifIndex (r : VerifRow) : String := indexKey r.monNomProduit r.concurrent

/-- The `IndexUnique` value of a products-url row
(traitement_principal.py lines 713-715). -/
def urlIndex (r : UrlRow) : String := indexKey r.nomProduit r.competitorDomain

/-- The local-cache lookup of `_worker_task`, i.e. the `try` block of
traitement_principal.py lines 576-607, producing
`(competitor_url, verification_has_no_url, status-so-far)`.
The guard `not df.empty and "IndexUnique" in df.columns and key in values`
is modelled by `hasIndexUnique && find? ≠ none`; reading the missing
`URLConcurrent` column (lines 580 and 595) raises, modelled by
`Except.error ()`.  Both raising reads happen before `competitor_url` or
`verification_has_no_url` is assigned, so a raise leaves them at their
initial values (`None` / `False`). -/
def localLookup (vdf : VerifDF) (pdf : UrlDF) (key : String) :
    Except Unit (Option String × Bool × St) :=
  match (if vdf.hasIndexUnique then vdf.rows.find? (fun r => verifIndex r == key)
         else none) with
  | some r =>
    if !vdf.hasURL then Except.error ()
    else if validUrl (some r.urlConcurrent) then
      Except.ok (some r.urlConcurrent, false, St.urlFromVerification)
    else
      Except.ok (some r.urlConcurrent, true, St.verificationNoURL)
  | none =>
    match (if pdf.hasIndexUnique then pdf.rows.find? (fun r => urlIndex r == key)
           else none) with
    | some r =>
      if !pdf.hasURL then Except.error ()
      else if validUrl (some r.urlConcurrent) then
        Except.ok (some r.urlConcurrent, false, St.urlFromCache)
      else Except.ok (none, false, St.stInit)
    | none => Except.ok (none, false, St.stInit)

/-- Outcome of the URL-resolution phase of `_worker_task`
(traitement_principal.py lines 559-628): the resolved URL, the status after
step 2, the `verification_has_no_url` flag, and whether the Serper
collaborator was invoked. -/
structure ResolveOut where
  url : Option String
  status : St
  verifNoUrl : Bool
  serperCalled : Bool
deriving DecidableEq, Repr

/-- Step 2 of `_worker_task` (traitement_principal.py lines 612-628): call
the Serper collaborator when no truthy URL was found locally and the pair is
not parked; `serper` is the collaborator's outcome (`Except.error` models a
raised exception, turned into `'Serper API Error'`).  A valid search result
becomes the competitor URL with status `'URL From Serper'`; an empty or
invalid one leaves the URL untouched with status `'Serper Not Found'`. -/
def serperStep (serper : Except Unit (Option String))
    (url : Option String) (flag : Bool) (st : St) : ResolveOut :=
  if !pyTruthy url && !flag then
    match serper with
    | Except.ok su =>
      if validUrl su then
        { url := su, status := St.urlFromSerper, verifNoUrl := flag,
          serperCalled := true }
      else
        { url := url, status := St.serperNotFound, verifNoUrl := flag,
          serperCalled := true }
    | Except.error _ =>
      { url := url, status := St.serperApiError, verifNoUrl := flag,
        serperCalled := true }
  else
    { url := url, status := st, verifNoUrl := flag, serperCalled := false }

/-- The URL-resolution phase of `_worker_task` (traitement_principal.py
lines 559-628): normalise the key (lines 562-564), run the local lookup with
its `except` clause mapping a raise to status `'LocalLookupError'`
(lines 608-610), then the Serper step. -/
def resolveURL (serper : Except Unit (Option String))
    (vdf : VerifDF) (pdf : UrlDF) (name dom : String) : ResolveOut :=
  let key := indexKey name dom
  match localLookup vdf pdf key with
  | Except.error _ => serperStep serper none false St.localLookupError
  | Except.ok (url, flag, st) => serperStep serper url flag st

/-- Final result of one `_worker_task` call. -/
structure TaskResult where
  status : St
  name : Option String
  price : Option ℚ
  url : Option String
deriving DecidableEq, Repr

/-- Embedding of `_worker_task(my_product_name, domain, verification_df,
products_url_df)` (traitement_principal.py lines 548-657): resolve the URL,
then (lines 630-656) either mark the pair `'Requires LPV'` for the
automation domain, scrape it through `extract_product_info` (whose outcome
is abstracted by `fetch`), or finalise the failure status.  The
`'ScrapingException'` guard of line 647 is unreachable here because
`extract_product_info` is total, and the `'KeyNormalizationError'` guard of
lines 565-568 is unreachable because names and domains are strings. -/
def worker_task (serper : Except Unit (Option String)) (fetch : FetchOutcome)
    (vdf : VerifDF) (pdf : UrlDF) (name dom : String) : TaskResult :=
  let r := resolveURL serper vdf pdf name dom
  if validUrl r.url then
    if dom == "lepetitvapoteur.com" then
      { status := St.requiresLPV, name := none, price := none, url := r.url }
    else
      let e := extract_product_info fetch
      { status := e.2.2, name := e.1, price := e.2.1, url := r.url }
  else if !r.verifNoUrl then
    if r.status ∉ [St.serperNotFound, St.serperApiError, St.localLookupError]
    then { status := St.noUrlToScrape, name := none, price := none, url := none }
    else { status := r.status, name := none, price := none, url := none }
  else { status := r.status, name := none, price := none, url := none }

/-- A message on the LPV task queue: the terminating sentinel (`None`), a
malformed payload (not a dict with `url` and `my_product_name`), or a
well-formed task (traitement_principal.py lines 478-497). -/
inductive TaskMsg
  | sentinel
  | malformed (payload : String)
  | task (url : String) (myProductName : String)
deriving DecidableEq, Repr

/-- Is this message the terminating sentinel? -/
def TaskMsg.isSentinel : TaskMsg → Bool
  | TaskMsg.sentinel => true
  | _ => false

/-- Is this message a well-formed task? -/
def TaskMsg.isTask : TaskMsg → Bool
  | TaskMsg.task _ _ => true
  | _ => false

/-- A message on the LPV result queue (traitement_principal.py
lines 489-493 and 504-511 and 525-530). -/
structure LPVResult where
  status : St
  name : Option String
  price : Option ℚ
  url : String
  myProductName : String
deriving DecidableEq, Repr

/-- Embedding of the processing loop of `persistent_lpv_worker(url_queue,
result_queue)` (traitement_principal.py lines 474-534), after a successful
driver start.  The queue's message stream is given as a list; the returned
list is the sequence of results put on the result queue.  `scrape` abstracts
`scrape_with_selenium_lpv_core` for each URL, with `Except.error` modelling a
raise out of the routine (or the loop body), which the `except` clause of
lines 520-530 turns into a `'WorkerLoopError: ...'` result carrying the
in-scope url and product name.  A sentinel breaks the loop; a malformed
message emits the `'InvalidTaskData'` result of lines 489-493 and
continues. -/
def persistent_lpv_worker
    (scrape : String → Except Unit (Option String × Option ℚ × Nat)) :
    List TaskMsg → List LPVResult
  | [] => []
  | TaskMsg.sentinel :: _ => []
  | TaskMsg.malformed p :: rest =>
    { status := St.invalidTaskData, name := none, price := none,
      url := p, myProductName := "Inconnu (Erreur Task Data)" }
      :: persistent_lpv_worker scrape rest
  | TaskMsg.task u n :: rest =>
    (match scrape u with
     | Except.ok (nm, pr, code) =>
       { status := St.httpCode code, name := nm, price := pr,
         url := u, myProductName := n }
     | Except.error _ =>
       { status := St.workerLoopError, name := none, price := none,
         url := u, myProductName := n })
      :: persistent_lpv_worker scrape rest

/-- A row of the input CSV catalog: the optional `NomProduit` cell and the
parsed `_my_price_float` cell (traitement_principal.py lines 726-736);
`none` price models an unparsable or missing `MonPrix`. -/
structure CsvRow where
  nomProduit : Option String
  monPrix : Option ℚ
deriving DecidableEq, Repr

/-- The `product_prices` dict (traitement_principal.py line 736):
`set_index('NomProduit')['_my_price_float'].dropna().to_dict()` keeps, for a
given name, the LAST row with that name and a non-null parsed price. -/
def product_prices (rows : List CsvRow) (n : String) : Option ℚ :=
  (rows.filterMap (fun r =>
    match r.nomProduit, r.monPrix with
    | some m, some p => if m == n then some p else none
    | _, _ => none)).getLast?

/-- The submission guard of traitement_principal.py lines 784-786:
`if not my_product_name or my_price is None: continue`.  A row is submitted
iff its name cell is a truthy string and the price dict has an entry for
it. -/
def validRow (rows : List CsvRow) (r : CsvRow) : Bool :=
  match r.nomProduit with
  | some n => !(n == "") && (product_prices rows n).isSome
  | none => false

/-- The (product, domain) pairs actually submitted to the thread pool
(traitement_principal.py lines 783-790): one per valid CSV row and selected
competitor domain. -/
def submittedPairs (rows : List CsvRow) (comps : List String) :
    List (String × String) :=
  (rows.filter (validRow rows)).flatMap
    (fun r => comps.map (fun d => ((r.nomProduit.getD ""), d)))

/-- `total_tasks = total_products_csv * len(competitors)`
(traitement_principal.py line 750): counts EVERY CSV row, including rows
that the submission guard later skips. -/
def total_tasks (rows : List CsvRow) (comps : List String) : Nat :=
  rows.length * comps.length

/-- One step of the `as_completed` loop of traitement_principal.py
lines 796-839, restricted to its progress accounting: a task whose result is
`'Requires LPV'` with a truthy URL while the LPV worker is alive is
forwarded to the LPV queue (no progress increment, line 811-813); every
other outcome — including a raised `future.result()` — increments
`completed_final_tasks` (lines 821, 827, 833). -/
def completedStep (oracle : String → String → TaskResult) (alive : Bool)
    (acc : Nat × Nat) (pr : String × String) : Nat × Nat :=
  let res := oracle pr.1 pr.2
  if res.status == St.requiresLPV && pyTruthy res.url && alive then
    (acc.1, acc.2 + 1)
  else (acc.1 + 1, acc.2)

/-- The final value of `completed_final_tasks` delivered to the progress
callback by the end of `process_products` (traitement_principal.py
lines 751-874): the `as_completed` loop counts every non-forwarded task, and
the LPV collection loop of lines 845-874 then increments once per forwarded
task on every branch (`increment_progress_lpv` is set on the success,
invalid-result, timeout and exception paths alike). -/
def completed_final (oracle : String → String → TaskResult) (alive : Bool)
    (rows : List CsvRow) (comps : List String) : Nat :=
  let p := (submittedPairs rows comps).foldl (completedStep oracle alive) (0, 0)
  p.1 + p.2

/-! Helper lemmas. -/

/-- Evaluation rule for `round2` by bracketing the scaled argument between
consecutive integers. -/
theorem round2_eq_of (q : ℚ) (n : ℤ) (h1 : (n : ℚ) ≤ q * 100 + 1 / 2)
    (h2 : q * 100 + 1 / 2 < n + 1) : round2 q = (n : ℚ) / 100 := by
  unfold round2
  rw [Int.floor_eq_iff.mpr ⟨h1, by exact_mod_cast h2⟩]

theorem round2_twentyfive : round2 25 = 25 := by
  rw [round2_eq_of 25 2500 (by norm_num) (by norm_num)]; norm_num

theorem round2_neg_twenty : round2 (-20) = -20 := by
  rw [round2_eq_of (-20) (-2000) (by norm_num) (by norm_num)]; norm_num

/-! Claim theorems. -/

/-- Claim C5, counterexample: a present but non-float-convertible price makes
`calculate_price_difference` return the string `"Erreur Type"`
(traitement_principal.py line 311), not `"N/A"` as the claim states for
non-numeric prices. -/
theorem C5_counterexample :
    calculate_price_difference (some PVal.nonNumeric) (some (PVal.num 1))
        ≠ PriceOut.na ∧
    calculate_price_difference (some PVal.nonNumeric) (some (PVal.num 1))
        = PriceOut.typeErr := by
  exact ⟨by decide, rfl⟩

/-- Claim C5, amended: `calculate_price_difference` returns the rounded
percentage when the competitor price is positive, `inf` when the competitor
price is zero and mine is positive, `0.0` when both are zero, `"N/A"` when
the competitor price is negative or either price is missing (`None`), and
`"Erreur Type"` (not `"N/A"`) when either price is present but not
float-convertible; the four concrete examples of the claim all hold. -/
theorem C5_amended_theorem (my comp : ℚ) :
    (0 < comp →
      calculate_price_difference (some (PVal.num my)) (some (PVal.num comp))
        = PriceOut.val (round2 ((my - comp) / comp * 100))) ∧
    (comp = 0 → 0 < my →
      calculate_price_difference (some (PVal.num my)) (some (PVal.num comp))
        = PriceOut.inf) ∧
    (comp = 0 → my = 0 →
      calculate_price_difference (some (PVal.num my)) (some (PVal.num comp))
        = PriceOut.val 0) ∧
    (comp < 0 →
      calculate_price_difference (some (PVal.num my)) (some (PVal.num comp))
        = PriceOut.na) ∧
    calculate_price_difference none (some (PVal.num comp)) = PriceOut.na ∧
    calculate_price_difference (some (PVal.num my)) none = PriceOut.na ∧
    calculate_price_difference (some PVal.nonNumeric) (some (PVal.num comp))
      = PriceOut.typeErr ∧
    calculate_price_difference (some (PVal.num my)) (some PVal.nonNumeric)
      = PriceOut.typeErr ∧
    calculate_price_difference (some (PVal.num 100)) (some (PVal.num 80))
      = PriceOut.val 25 ∧
    calculate_price_difference (some (PVal.num 80)) (some (PVal.num 100))
      = PriceOut.val (-20) ∧
    calculate_price_difference (some (PVal.num 10)) (some (PVal.num 0))
      = PriceOut.inf ∧
    calculate_price_difference (some (PVal.num 0)) (some (PVal.num 0))
      = PriceOut.val 0 := by
  refine ⟨?_, ?_, ?_, ?_, rfl, rfl, rfl, rfl, ?_, ?_, ?_, ?_⟩
  · intro h
    simp only [calculate_price_difference]
    rw [if_pos h]
  · intro h0 hm
    simp only [calculate_price_difference]
    rw [if_neg (by rw [h0]; exact lt_irrefl 0), if_pos ⟨h0, hm⟩]
  · intro h0 hm
    simp only [calculate_price_difference]
    rw [if_neg (by rw [h0]; exact lt_irrefl 0),
      if_neg (by rw [hm]; exact fun hc => lt_irrefl 0 hc.2),
      if_pos ⟨h0, hm⟩]
  · intro h
    simp only [calculate_price_difference]
    rw [if_neg (by exact fun hc => absurd (lt_trans h hc) (lt_irrefl comp)),
      if_neg (by exact fun hc => absurd hc.1 (ne_of_lt h)),
      if_neg (by exact fun hc => absurd hc.1 (ne_of_lt h))]
  · simp only [calculate_price_difference]
    norm_num [round2_twentyfive]
  · simp only [calculate_price_difference]
    norm_num [round2_neg_twenty]
  · simp only [calculate_price_difference]
    norm_num
  · simp only [calculate_price_difference]
    norm_num

/-- Witness for C5: the amended theorem instantiated at `(10, 0)`. -/
theorem C5_witness :
    calculate_price_difference (some (PVal.num 10)) (some (PVal.num 0))
      = PriceOut.inf :=
  (C5_amended_theorem 10 0).2.1 rfl (by norm_num)

/-- Claim C8: `extract_product_info` is total — every outcome of its body
yields a `(name, price, status)` triple — and its `except` clauses map an
HTTP error to the numeric response status code, a transport error to the
sentinel `'RequestError'`, and any other exception to `'UnknownError'`
(scraper_utils.py lines 79-87); the success path reports the captured HTTP
status (line 30). -/
theorem C8_theorem :
    (∀ c : Nat, extract_product_info (FetchOutcome.httpError c)
        = (none, none, St.httpCode c)) ∧
    extract_product_info FetchOutcome.requestExc
      = (none, none, St.requestError) ∧
    extract_product_info FetchOutcome.otherExc
      = (none, none, St.unknownError) ∧
    (∀ n pt s, (extract_product_info (FetchOutcome.ok n pt s)).2.2
        = St.httpCode s) :=
  ⟨fun _ => rfl, rfl, rfl, fun _ _ _ => rfl⟩

/-- Claim C2: the cache operations are NOT idempotent through their caller
interface.  `save_or_update_url` on an absent pair builds its new frame with
`pd.concat` and rebinds the local name (traitement_principal.py line 294),
so the caller's frame is unchanged and a second identical call again takes
the append path and again reports `True`.  The same slip affects
`add_to_manual_verification` (line 241) and
`remove_from_manual_verification` (line 259).  This contradicts the code's
own comment at lines 215-216 ("Ces fonctions modifient les DFs passés en
argument ... et retournent True si une modification a eu lieu"). -/
theorem C2_theorem :
    (save_or_update_url_effect "p" "d" (some "u") []).2 = true ∧
    (save_or_update_url_effect "p" "d" (some "u")
      (save_or_update_url_effect "p" "d" (some "u") []).1).2 = true ∧
    (add_to_manual_verification_effect "p" "d" (some "u") []).2 = true ∧
    (add_to_manual_verification_effect "p" "d" (some "u")
      (add_to_manual_verification_effect "p" "d" (some "u") []).1).2 = true ∧
    (remove_from_manual_verification_effect "p" "d" [⟨"p", "d", "u"⟩]).2
      = true ∧
    (remove_from_manual_verification_effect "p" "d"
      (remove_from_manual_verification_effect "p" "d"
        [⟨"p", "d", "u"⟩]).1).2 = true := by
  decide

/-- Claim C3: on a success result for a pair that has a stale verification
entry, `process_single_result` reports the verification frame as changed
(`remove_from_manual_verification` returns `True`, traitement_principal.py
lines 992-993), yet the caller-visible verification collection still
contains the entry, because line 259 rebinds the callee's local name instead
of mutating the frame; the claimed self-healing removal never lands.  The
report row itself is emitted, and the upsert of a new pair is likewise lost
(`pdf` stays empty while `productsChanged` is `True`). -/
theorem C3_theorem :
    (process_single_result (fun _ _ => 0) "p" 50 "d" (some "http://x")
      (St.httpCode 200) (some "P2") (some 40) [⟨"p", "d", ""⟩] []).row.isSome
      = true ∧
    (process_single_result (fun _ _ => 0) "p" 50 "d" (some "http://x")
      (St.httpCode 200) (some "P2") (some 40) [⟨"p", "d", ""⟩] []).verifChanged
      = true ∧
    (process_single_result (fun _ _ => 0) "p" 50 "d" (some "http://x")
      (St.httpCode 200) (some "P2") (some 40) [⟨"p", "d", ""⟩] []).vdf
      = [⟨"p", "d", ""⟩] ∧
    (process_single_result (fun _ _ => 0) "p" 50 "d" (some "http://x")
      (St.httpCode 200) (some "P2") (some 40) [⟨"p", "d", ""⟩] []).productsChanged
      = true ∧
    (process_single_result (fun _ _ => 0) "p" 50 "d" (some "http://x")
      (St.httpCode 200) (some "P2") (some 40) [⟨"p", "d", ""⟩] []).pdf
      = [] := by
  decide

/-- Claim C10: a page whose fetch succeeds (HTTP 200) but whose price text
contains no digits yields `(some name, none, 200)` from
`extract_product_info`; `process_single_result` then classifies the result
as a failure (no report row) despite the 200 status — but the claimed
verification entry is never actually added: `add_to_manual_verification`
returns `True` while the caller-visible collection stays empty
(traitement_principal.py line 241 rebinds the local frame). -/
theorem C10_theorem :
    extract_product_info
        (FetchOutcome.ok (some "Widget") (some "Prix indisponible") 200)
      = (some "Widget", none, St.httpCode 200) ∧
    (process_single_result (fun _ _ => 0) "Widget" 50 "kumulusvape.fr"
      (some "http://u") (St.httpCode 200) (some "Widget") none [] []).row
      = none ∧
    (process_single_result (fun _ _ => 0) "Widget" 50 "kumulusvape.fr"
      (some "http://u") (St.httpCode 200) (some "Widget") none [] []).verifChanged
      = true ∧
    (process_single_result (fun _ _ => 0) "Widget" 50 "kumulusvape.fr"
      (some "http://u") (St.httpCode 200) (some "Widget") none [] []).vdf
      = [] := by
  decide

/-- Each step of the as-completed loop adds exactly one unit to either the
completed counter or the forwarded-to-LPV counter. -/
theorem foldl_completedStep (oracle : String → String → TaskResult)
    (alive : Bool) :
    ∀ (ps : List (String × String)) (acc : Nat × Nat),
      (ps.foldl (completedStep oracle alive) acc).1
        + (ps.foldl (completedStep oracle alive) acc).2
        = acc.1 + acc.2 + ps.length := by
  intro ps
  induction ps with
  | nil => intro acc; simp
  | cons a tl ih =>
    intro acc
    rw [List.foldl_cons, ih]
    have h1 : (completedStep oracle alive acc a).1
        + (completedStep oracle alive acc a).2 = acc.1 + acc.2 + 1 := by
      by_cases hc : ((oracle a.1 a.2).status == St.requiresLPV
          && pyTruthy (oracle a.1 a.2).url && alive) = true
      · simp [completedStep, hc]
        omega
      · simp [completedStep, hc]
        omega
    simp only [List.length_cons]
    omega

/-- Fanning a list of products out over the competitor list yields
`products * competitors` pairs. -/
theorem flatMap_pairs_length (comps : List String) :
    ∀ (l : List CsvRow),
      (l.flatMap (fun r => comps.map (fun d => ((r.nomProduit.getD ""), d)))).length
        = l.length * comps.length := by
  intro l
  induction l with
  | nil => simp
  | cons a tl ih => simp [ih, Nat.succ_mul, Nat.add_comm]

/-- Claim C1, counterexample: a CSV with one product whose price is
unparsable and one competitor gives `totalTasks = 1` (skipped rows ARE
counted by line 750 of traitement_principal.py) while the completed count
delivered by run end is `0`, so the two are not equal. -/
theorem C1_counterexample :
    completed_final (fun _ _ => ⟨St.stInit, none, none, none⟩) false
        [⟨some "p", none⟩] ["d"]
      ≠ total_tasks [⟨some "p", none⟩] ["d"] := by
  decide

/-- Claim C1, amended: a product with no parsable price or no name is indeed
skipped before task submission, but it IS counted in `totalTasks`
(`total_products_csv * len(competitors)`, traitement_principal.py line 750).
By run end the completed count equals `|validProducts| * |competitors|` —
one increment per actually submitted pair, over both the as-completed loop
and the LPV collection loop — which is at most `totalTasks`, falling short
by `|skippedProducts| * |competitors|`. -/
theorem C1_amended_theorem (oracle : String → String → TaskResult)
    (alive : Bool) (rows : List CsvRow) (comps : List String) :
    completed_final oracle alive rows comps
      = (rows.filter (validRow rows)).length * comps.length ∧
    completed_final oracle alive rows comps ≤ total_tasks rows comps := by
  have hlen : completed_final oracle alive rows comps
      = (submittedPairs rows comps).length := by
    unfold completed_final
    rw [foldl_completedStep]
    simp
  have hsub : (submittedPairs rows comps).length
      = (rows.filter (validRow rows)).length * comps.length := by
    unfold submittedPairs
    rw [flatMap_pairs_length]
  refine ⟨hlen.trans hsub, ?_⟩
  rw [hlen.trans hsub]
  unfold total_tasks
  exact Nat.mul_le_mul_right _ (List.length_filter_le _ _)

/-- The raw composite key of a products-url row, as matched by
`save_or_update_url` (un-normalised `NomProduit` and `CompetitorDomain`). -/
def rawKey (r : UrlRow) : String × String := (r.nomProduit, r.competitorDomain)

/-- A sequence of upserts applied to the function-local view of the
confirmed-URL cache. -/
def applyUpserts (ops : List (String × String × Option String))
    (df : List UrlRow) : List UrlRow :=
  ops.foldl (fun d op => (save_or_update_url_local op.1 op.2.1 op.2.2 d).1) df

/-- The in-place update of `save_or_update_url` rewrites only the URL
column, so the raw key of every row is preserved. -/
theorem rawKey_update (p d u : String) (r : UrlRow) :
    rawKey (if urlRowMatches p d r then { r with urlConcurrent := u } else r)
      = rawKey r := by
  by_cases h : urlRowMatches p d r <;> simp [h, rawKey]

/-- One `save_or_update_url` on the function-local frame preserves
distinctness of the raw `(NomProduit, CompetitorDomain)` keys: the update
branch only rewrites URLs, and the append branch fires only when no row
matches the raw mask. -/
theorem save_local_rawKey_nodup (p d : String) (url : Option String)
    (df : List UrlRow) (h : (df.map rawKey).Nodup) :
    (((save_or_update_url_local p d url df).1).map rawKey).Nodup := by
  unfold save_or_update_url_local
  cases hf : df.find? (urlRowMatches p d) with
  | some r0 =>
    show (List.map rawKey (if r0.urlConcurrent ≠ pyUrlStr url then
        (df.map (fun r => if urlRowMatches p d r then
          { r with urlConcurrent := pyUrlStr url } else r), true)
      else (df, false)).1).Nodup
    by_cases hc : r0.urlConcurrent = pyUrlStr url
    · rw [if_neg (not_not_intro hc)]
      exact h
    · rw [if_pos hc]
      have heq : (df.map (fun r => if urlRowMatches p d r then
          { r with urlConcurrent := pyUrlStr url } else r)).map rawKey
          = df.map rawKey := by
        rw [List.map_map]
        exact List.map_congr_left (fun r _ => rawKey_update p d (pyUrlStr url) r)
      exact heq.symm ▸ h
  | none =>
    show (List.map rawKey (df ++ [⟨p, d, pyUrlStr url⟩])).Nodup
    rw [List.map_append, List.nodup_append]
    refine ⟨h, List.nodup_singleton _, ?_⟩
    intro k hk1 hk2
    simp only [List.map_cons, List.map_nil, List.mem_singleton] at hk2
    subst hk2
    rcases List.mem_map.mp hk1 with ⟨r, hrmem, hrk⟩
    have hnm := List.find?_eq_none.mp hf r hrmem
    have h1 : r.nomProduit = p := congrArg Prod.fst hrk
    have h2 : r.competitorDomain = d := congrArg Prod.snd hrk
    exact hnm (by simp [urlRowMatches, h1, h2])

/-- Claim C6, counterexample: starting from a cache with a single entry
`("Widget", "dom")` (no duplicate normalised keys), an upsert for the same
pair under case variance (`"widget"`, `"dom"`) does not update the existing
entry: `save_or_update_url` matches on RAW equality
(traitement_principal.py lines 277-278), misses, and appends a second row,
leaving two entries with equal normalised composite keys in the function's
resulting frame. -/
theorem C6_counterexample :
    (([⟨"Widget", "dom", "u"⟩] : List UrlRow).map urlIndex).Nodup ∧
    ¬ ((save_or_update_url_local "widget" "dom" (some "u2")
        [⟨"Widget", "dom", "u"⟩]).1.map urlIndex).Nodup ∧
    (save_or_update_url_local "widget" "dom" (some "u2")
        [⟨"Widget", "dom", "u"⟩]).1.length = 2 := by
  decide

/-- Claim C6, amended: the invariant that does hold of `save_or_update_url`
is keyed on RAW, un-normalised strings: starting from a cache with no two
entries sharing the same raw `(NomProduit, CompetitorDomain)` pair, any
sequence of upserts preserves that raw distinctness (update-in-place when a
raw match exists, append only when none does).  Case or whitespace variants
of the same pair are distinct raw keys, so they CAN fragment the cache into
rows with equal normalised keys. -/
theorem C6_amended_theorem (ops : List (String × String × Option String))
    (df : List UrlRow) (h : (df.map rawKey).Nodup) :
    ((applyUpserts ops df).map rawKey).Nodup := by
  induction ops generalizing df with
  | nil => simpa [applyUpserts] using h
  | cons op tl ih =>
    simp only [applyUpserts, List.foldl_cons]
    exact ih _ (save_local_rawKey_nodup op.1 op.2.1 op.2.2 df h)

/-- Witness for C6: the amended theorem applied to a concrete run — two
upserts of distinct raw pairs starting from the empty cache. -/
theorem C6_witness :
    ((applyUpserts [("p", "d", some "u"), ("q", "d", some "v")] []).map
      rawKey).Nodup :=
  C6_amended_theorem [("p", "d", some "u"), ("q", "d", some "v")] [] (by decide)

/-- The LPV worker emits one result per message processed before the
sentinel, whatever the extraction routine does. -/
theorem worker_emits_per_message
    (scrape : String → Except Unit (Option String × Option ℚ × Nat)) :
    ∀ msgs : List TaskMsg,
      (persistent_lpv_worker scrape msgs).length
        = (msgs.takeWhile (fun m => !m.isSentinel)).length := by
  intro msgs
  induction msgs with
  | nil => rfl
  | cons m tl ih =>
    cases m with
    | sentinel => simp [persistent_lpv_worker, List.takeWhile_cons, TaskMsg.isSentinel]
    | malformed p =>
      simp [persistent_lpv_worker, List.takeWhile_cons, TaskMsg.isSentinel, ih]
    | task u n =>
      simp [persistent_lpv_worker, List.takeWhile_cons, TaskMsg.isSentinel, ih]

/-- Restricted to non-`InvalidTaskData` results, the LPV worker emits
exactly one result per WELL-FORMED task received before the sentinel. -/
theorem worker_emits_per_task
    (scrape : String → Except Unit (Option String × Option ℚ × Nat)) :
    ∀ msgs : List TaskMsg,
      ((persistent_lpv_worker scrape msgs).filter
          (fun r => !(r.status == St.invalidTaskData))).length
        = ((msgs.takeWhile (fun m => !m.isSentinel)).filter
            TaskMsg.isTask).length := by
  intro msgs
  induction msgs with
  | nil => rfl
  | cons m tl ih =>
    cases m with
    | sentinel => simp [persistent_lpv_worker, List.takeWhile_cons, TaskMsg.isSentinel]
    | malformed p =>
      simp [persistent_lpv_worker, List.takeWhile_cons, TaskMsg.isSentinel,
        TaskMsg.isTask, List.filter_cons, ih]
    | task u n =>
      have hst : ((match scrape u with
          | Except.ok (nm, pr, code) =>
            ({ status := St.httpCode code, name := nm, price := pr,
               url := u, myProductName := n } : LPVResult)
          | Except.error _ =>
            { status := St.workerLoopError, name := none, price := none,
              url := u, myProductName := n }).status
          == St.invalidTaskData) = false := by
        cases hs : scrape u with
        | ok v =>
          rcases v with ⟨nm, pr, code⟩
          simp
        | error e => simp
      simp [persistent_lpv_worker, List.takeWhile_cons, TaskMsg.isSentinel,
        TaskMsg.isTask, List.filter_cons, hst, ih]

/-- Claim C7: the automation worker loop emits exactly one result message
per well-formed task received before the sentinel (and also one
`'InvalidTaskData'` result per malformed message, so one result per
processed message overall); a raise out of the extraction routine or the
loop body is caught and still produces exactly one result, carrying the
distinguished `'WorkerLoopError'` status and the in-scope url and product
name (traitement_principal.py lines 520-530); and the sentinel stops the
loop with no further processing (lines 481-483). -/
theorem C7_theorem
    (scrape : String → Except Unit (Option String × Option ℚ × Nat)) :
    (∀ msgs : List TaskMsg,
      (persistent_lpv_worker scrape msgs).length
        = (msgs.takeWhile (fun m => !m.isSentinel)).length) ∧
    (∀ msgs : List TaskMsg,
      ((persistent_lpv_worker scrape msgs).filter
          (fun r => !(r.status == St.invalidTaskData))).length
        = ((msgs.takeWhile (fun m => !m.isSentinel)).filter
            TaskMsg.isTask).length) ∧
    (∀ rest : List TaskMsg,
      persistent_lpv_worker scrape (TaskMsg.sentinel :: rest) = []) ∧
    (∀ (u n : String) (rest : List TaskMsg),
      scrape u = Except.error () →
        (persistent_lpv_worker scrape (TaskMsg.task u n :: rest)).head?
          = some { status := St.workerLoopError, name := none, price := none,
                   url := u, myProductName := n }) := by
  refine ⟨worker_emits_per_message scrape, worker_emits_per_task scrape,
    fun _ => rfl, ?_⟩
  intro u n rest h
  simp [persistent_lpv_worker, h]

/-- Witness for C7: a raising extraction routine on a single-task stream
still yields exactly the distinguished error result. -/
theorem C7_witness :
    (persistent_lpv_worker (fun _ => Except.error ())
        [TaskMsg.task "http://u" "prod"]).head?
      = some { status := St.workerLoopError, name := none, price := none,
               url := "http://u", myProductName := "prod" } :=
  (C7_theorem (fun _ => Except.error ())).2.2.2 "http://u" "prod" [] rfl

/-- The Serper fallback exactly as claim C4 words it: called with the pair,
a non-empty result yields `'URL From Serper'`, an empty result
`'Serper Not Found'`, an exception `'Serper API Error'`. -/
def resolveSpecSerper (serper : Except Unit (Option String)) : ResolveOut :=
  match serper with
  | Except.ok su =>
    if validUrl su then
      { url := su, status := St.urlFromSerper, verifNoUrl := false,
        serperCalled := true }
    else
      { url := none, status := St.serperNotFound, verifNoUrl := false,
        serperCalled := true }
  | Except.error _ =>
    { url := none, status := St.serperApiError, verifNoUrl := false,
      serperCalled := true }

/-- Resolution order as claim C4 words it (a refinement-side definition, to
be compared with `resolveURL` from the source): a verification-queue entry
with a non-blank URL wins with `'URL From Verification'`; an entry without
one stops resolution with `'Verification No URL'` and no search call; else a
non-blank confirmed-cache URL wins with `'URL From Cache'`; else the search
collaborator decides.  "Present in the queue" is the first row whose
normalised composite key matches, as in the source. -/
def resolveSpec (serper : Except Unit (Option String)) (vdf : VerifDF)
    (pdf : UrlDF) (name dom : String) : ResolveOut :=
  let key := indexKey name dom
  match vdf.rows.find? (fun r => verifIndex r == key) with
  | some r =>
    if validUrl (some r.urlConcurrent) then
      { url := some r.urlConcurrent, status := St.urlFromVerification,
        verifNoUrl := false, serperCalled := false }
    else
      { url := none, status := St.verificationNoURL, verifNoUrl := true,
        serperCalled := false }
  | none =>
    match pdf.rows.find? (fun r => urlIndex r == key) with
    | some r =>
      if validUrl (some r.urlConcurrent) then
        { url := some r.urlConcurrent, status := St.urlFromCache,
          verifNoUrl := false, serperCalled := false }
      else resolveSpecSerper serper
    | none => resolveSpecSerper serper

/-- A URL accepted by the strip-validity test is in particular truthy. -/
theorem pyTruthy_of_validUrl {s : String} (h : validUrl (some s) = true) :
    pyTruthy (some s) = true := by
  by_cases hs : s = ""
  · subst hs
    exact absurd h (by decide)
  · simp [pyTruthy, hs]

/-- Claim C4: on well-formed frames (both index columns built by the
orchestrator and both URL columns present), the resolution phase of
`_worker_task` agrees with the first-match-wins cascade of the claim —
same status, same decision to call the search collaborator (in particular
never for a parked `'Verification No URL'` pair), same
`verification_has_no_url` flag, and the same resolved URL whenever the pair
is not parked (on the parked path the source leaves the blank sentinel
value in its local variable, which is never used downstream). -/
theorem C4_theorem (serper : Except Unit (Option String)) (vdf : VerifDF)
    (pdf : UrlDF) (name dom : String)
    (hvi : vdf.hasIndexUnique = true) (hvu : vdf.hasURL = true)
    (hpi : pdf.hasIndexUnique = true) (hpu : pdf.hasURL = true) :
    (resolveURL serper vdf pdf name dom).status
      = (resolveSpec serper vdf pdf name dom).status ∧
    (resolveURL serper vdf pdf name dom).serperCalled
      = (resolveSpec serper vdf pdf name dom).serperCalled ∧
    (resolveURL serper vdf pdf name dom).verifNoUrl
      = (resolveSpec serper vdf pdf name dom).verifNoUrl ∧
    ((resolveURL serper vdf pdf name dom).status ≠ St.verificationNoURL →
      (resolveURL serper vdf pdf name dom).url
        = (resolveSpec serper vdf pdf name dom).url) := by
  unfold resolveURL resolveSpec localLookup
  rw [hvi, hvu, hpi, hpu]
  simp only [if_true]
  cases hf : vdf.rows.find? (fun r => verifIndex r == indexKey name dom) with
  | some r =>
    by_cases hu : validUrl (some r.urlConcurrent) = true
    · simp [hu, serperStep, pyTruthy_of_validUrl hu]
    · simp [hu, serperStep]
  | none =>
    cases hp : pdf.rows.find? (fun r => urlIndex r == indexKey name dom) with
    | some r =>
      by_cases hu : validUrl (some r.urlConcurrent) = true
      · simp [hu, serperStep, pyTruthy_of_validUrl hu]
      · cases serper with
        | ok su =>
          by_cases hsu : validUrl su = true
          · simp [hu, hsu, serperStep, resolveSpecSerper, pyTruthy]
          · simp [hu, hsu, serperStep, resolveSpecSerper, pyTruthy]
        | error e => simp [hu, serperStep, resolveSpecSerper, pyTruthy]
    | none =>
      cases serper with
      | ok su =>
        by_cases hsu : validUrl su = true
        · simp [hsu, serperStep, resolveSpecSerper, pyTruthy]
        · simp [hsu, serperStep, resolveSpecSerper, pyTruthy]
      | error e => simp [serperStep, resolveSpecSerper, pyTruthy]

/-- Witness for C4: the theorem instantiated on concrete well-formed frames
(a verification hit with a non-blank URL), hypotheses discharged by `rfl`. -/
theorem C4_witness :
    (resolveURL (Except.ok none)
        ⟨true, true, [⟨"p", "d", "http://v"⟩]⟩ ⟨true, true, []⟩ "p" "d").status
      = (resolveSpec (Except.ok none)
        ⟨true, true, [⟨"p", "d", "http://v"⟩]⟩ ⟨true, true, []⟩ "p" "d").status :=
  (C4_theorem (Except.ok none) ⟨true, true, [⟨"p", "d", "http://v"⟩]⟩
    ⟨true, true, []⟩ "p" "d" rfl rfl rfl rfl).1

/-- Claim C9, counterexample: a verification frame whose `IndexUnique`
column is present but whose `URLConcurrent` column is missing makes the
local lookup raise on the matching pair (modelled by `Except.error`); the
exception is caught inside the task, but the task's reported status is
`'Serper Not Found'` (the search fallback still ran and overwrote the
transient `'LocalLookupError'`), not `'LocalLookupError'` as claimed. -/
theorem C9_counterexample :
    localLookup ⟨true, false, [⟨"p", "d", "x"⟩]⟩ ⟨true, true, []⟩
        (indexKey "p" "d") = Except.error () ∧
    (worker_task (Except.ok none) (FetchOutcome.ok none none 200)
        ⟨true, false, [⟨"p", "d", "x"⟩]⟩ ⟨true, true, []⟩ "p" "d").status
      = St.serperNotFound ∧
    St.serperNotFound ≠ St.localLookupError := by
  exact ⟨rfl, by decide, by decide⟩

/-- Claim C9, amended: when the local cache lookup inside `_worker_task`
raises, the exception is indeed caught within the task (the task still
returns a result; the batch is not aborted) and the status is set to
`'LocalLookupError'` — but only transiently: since `competitor_url` is still
unset and the pair is not parked, resolution falls through to the Serper
step (traitement_principal.py line 613), which always overwrites the
status, so the task's final reported status is a Serper or scrape outcome
and never `'LocalLookupError'`. -/
theorem C9_amended_theorem (serper : Except Unit (Option String))
    (fetch : FetchOutcome) (vdf : VerifDF) (pdf : UrlDF) (name dom : String)
    (h : localLookup vdf pdf (indexKey name dom) = Except.error ()) :
    (resolveURL serper vdf pdf name dom).serperCalled = true ∧
    (worker_task serper fetch vdf pdf name dom).status
      ≠ St.localLookupError := by
  have hok : ∀ su, validUrl su = true → ∀ st : St,
      serperStep (Except.ok su) none false st
        = ⟨su, St.urlFromSerper, false, true⟩ := by
    intro su hsu st
    simp [serperStep, pyTruthy, hsu]
  have hnf : ∀ su, validUrl su = false → ∀ st : St,
      serperStep (Except.ok su) none false st
        = ⟨none, St.serperNotFound, false, true⟩ := by
    intro su hsu st
    simp [serperStep, pyTruthy, hsu]
  have herr : ∀ (e : Unit) (st : St),
      serperStep (Except.error e) none false st
        = ⟨none, St.serperApiError, false, true⟩ := by
    intro e st
    simp [serperStep, pyTruthy]
  have hres : resolveURL serper vdf pdf name dom
      = serperStep serper none false St.localLookupError := by
    unfold resolveURL
    show (match localLookup vdf pdf (indexKey name dom) with
      | Except.error _ => serperStep serper none false St.localLookupError
      | Except.ok (url, flag, st) => serperStep serper url flag st)
      = serperStep serper none false St.localLookupError
    rw [h]
  constructor
  · rw [hres]
    cases serper with
    | ok su =>
      cases hsu : validUrl su with
      | true => rw [hok su hsu]
      | false => rw [hnf su hsu]
    | error e => rw [herr e]
  · unfold worker_task
    rw [hres]
    cases serper with
    | ok su =>
      cases hsu : validUrl su with
      | true =>
        rw [hok su hsu]
        by_cases hd : (dom == "lepetitvapoteur.com") = true
        · simp [hsu, hd]
        · cases fetch with
          | ok n pt s => simp [hsu, hd, extract_product_info]
          | httpError c => simp [hsu, hd, extract_product_info]
          | requestExc => simp [hsu, hd, extract_product_info]
          | otherExc => simp [hsu, hd, extract_product_info]
      | false =>
        rw [hnf su hsu]
        simp [validUrl]
    | error e =>
      rw [herr e]
      simp [validUrl]

/-- Witness for C9: the amended theorem on a concrete frame with a missing
`URLConcurrent` column, a raising Serper collaborator and an unused fetch
outcome — the search step runs and the final status is not
`'LocalLookupError'`. -/
theorem C9_witness :
    (resolveURL (Except.error ()) ⟨true, false, [⟨"q", "e", "ph"⟩]⟩
        ⟨true, true, []⟩ "q" "e").serperCalled = true ∧
    (worker_task (Except.error ()) FetchOutcome.otherExc
        ⟨true, false, [⟨"q", "e", "ph"⟩]⟩ ⟨true, true, []⟩ "q" "e").status
      ≠ St.localLookupError :=
  C9_amended_theorem (Except.error ()) FetchOutcome.otherExc
    ⟨true, false, [⟨"q", "e", "ph"⟩]⟩ ⟨true, true, []⟩ "q" "e" rfl

end Scrapper
